import Mathlib

/-!
Shallow embedding of the employee-absence dashboard repository
(constants.py, data_utils.py, figures.py, app.py, main.py).

Dates are modelled as day numbers (days since 1970-01-01, the pandas
epoch).  Every timestamp this application manipulates is produced by
parsing a date-picker value or a CSV date cell followed by a call to
normalize, so it carries no time of day and is exactly a day number;
the normalize calls are therefore the identity in this model.
Missing values (NaT / NaN) are modelled with Option.
-/

namespace Absence

/-- Weekday names, constants.py WOCHENTAGE (identical list in main.py). -/
def WOCHENTAGE : List String :=
  ["Montag", "Dienstag", "Mittwoch", "Donnerstag", "Freitag", "Samstag", "Sonntag"]

/-- Month names, constants.py MONATE (identical list in main.py). -/
def MONATE : List String :=
  ["Januar", "Februar", "März", "April", "Mai", "Juni",
   "Juli", "August", "September", "Oktober", "November", "Dezember"]

/-- constants.py WOCHENTAG_MAP: weekday number 0..6 to its German name.
A missing key maps to NaN in pandas; that case is unreachable because
weekday numbers are always 0..6, and is modelled by the empty string. -/
def wochentagMap (n : Nat) : String := WOCHENTAGE.getD n ""

/-- constants.py MONAT_MAP: month number 1..12 to its German name. -/
def monatMap (n : Nat) : String := MONATE.getD (n - 1) ""

/-- Weekday of a day number in the pandas convention (Monday = 0).
Day 0 = 1970-01-01 was a Thursday, hence the offset 3. -/
def weekdayOf (d : Nat) : Nat := (d + 3) % 7

/-- Month (1..12) of a day number, by the standard civil-calendar
algorithm (shifting the epoch to 0000-03-01, 719468 days before
1970-01-01), mirroring what the pandas dt.month accessor returns. -/
def monthOf (d : Nat) : Nat :=
  let z := d + 719468
  let doe := z % 146097
  let yoe := (doe - doe / 1460 + doe / 36524 - doe / 146096) / 365
  let doy := doe - (365 * yoe + yoe / 4 - yoe / 100)
  let mp := (5 * doy + 2) / 153
  if mp < 10 then mp + 3 else mp - 9

/-- pandas date_range(start=s, end=e, freq=D): all days from s to e
inclusive, and the empty list when s > e. -/
def dateRange (s e : Nat) : List Nat := (List.range (e + 1 - s)).map (fun i => s + i)

/-- One row of the absence records table.  Fields mirror the CSV
columns Mitarbeiter-ID, Name, Startdatum, Enddatum, Grund and the
derived Fehltage column.  A missing date (NaT) is none; fehltage is
none when the value is NaN or the column is absent. -/
structure Row where
  mid : String
  name : String
  start : Option Nat
  ende : Option Nat
  grund : String
  fehltage : Option Int
deriving DecidableEq

/-- One row of the expanded (one row per absence day) table, with the
Wochentag and Monat columns that expand_abwesenheiten appends.  When
the expanded frame is empty those two columns are never created; in
this row-level model that case is invisible because there are no rows. -/
structure ExpRow where
  mid : String
  name : String
  datum : Nat
  grund : String
  wochentag : String
  monat : String
deriving DecidableEq

/-- The dict built for one absence day in both expand_abwesenheiten
variants, together with the Wochentag and Monat column values that are
computed from the Datum column afterwards. -/
def mkExp (r : Row) (d : Nat) : ExpRow :=
  { mid := r.mid, name := r.name, datum := d, grund := r.grund,
    wochentag := wochentagMap (weekdayOf d), monat := monatMap (monthOf d) }

namespace MainApp

/-- Body of the per-row loop of main.py expand_abwesenheiten: skip the
row when either date is NaT, otherwise one output row per day of
pd.date_range(start, end). -/
def expandRow (r : Row) : List ExpRow :=
  match r.start, r.ende with
  | some s, some e => (dateRange s e).map (mkExp r)
  | _, _ => []

/-- main.py expand_abwesenheiten: concatenation of the per-row
expansions over all rows, in row order. -/
def expand_abwesenheiten (df : List Row) : List ExpRow :=
  df.flatMap expandRow

end MainApp

namespace DataUtils

/-- Inner evaluation of the list comprehension of data_utils.py
expand_abwesenheiten.  The comprehension calls
pd.date_range(row.Startdatum, row.Enddatum) before its isna filter is
ever evaluated, and pandas date_range raises ValueError when start or
end is NaT, so a row with a missing date aborts the whole call (none);
the trailing isna filter of the comprehension is consequently dead. -/
def expandRows : List Row → Option (List ExpRow)
  | [] => some []
  | r :: rest =>
    match r.start, r.ende with
    | some s, some e => (expandRows rest).map (fun t => (dateRange s e).map (mkExp r) ++ t)
    | _, _ => none

/-- data_utils.py expand_abwesenheiten: empty input short-circuits to
an empty frame, otherwise the list comprehension runs (and raises,
modelled as none, on any row with a missing date). -/
def expand_abwesenheiten (df : List Row) : Option (List ExpRow) :=
  if df.isEmpty then some [] else expandRows df

end DataUtils

/-- The recomputed day count (Enddatum - Startdatum).dt.days + 1; NaN
(none) as soon as one date is NaT. -/
def fehltageOf (start ende : Option Nat) : Option Int :=
  match start, ende with
  | some s, some e => some ((e : Int) - (s : Int) + 1)
  | _, _ => none

/-- Effect of the column assignment df[Fehltage] = (df.Enddatum - df.Startdatum).dt.days + 1
on a single row. -/
def recomputeFehltage (r : Row) : Row :=
  { r with fehltage := fehltageOf r.start r.ende }

/-- Effect of the whole-column Fehltage assignment on all rows. -/
def computeFehltage (rows : List Row) : List Row := rows.map recomputeFehltage

/-- One scalar cell of the CSV file, at the granularity pandas
serializes: strings, ISO-formatted dates, decimal integers, and the
empty cell for NaN / NaT.  The textual layer (ISO date strings,
decimal digits, separator quoting) of to_csv and read_csv is library
code and is abstracted behind these typed cells. -/
inductive Cell
  | str (s : String)
  | date (d : Nat)
  | int (n : Int)
  | empty
deriving DecidableEq

/-- A CSV file on disk: the separator it was written with, its header
line, and one list of cells per record line. -/
structure CsvFile where
  sep : Char
  header : List String
  rows : List (List Cell)
deriving DecidableEq

/-- An in-memory pandas DataFrame over the record schema: the column
names (which track whether the derived Fehltage column is present)
and the rows. -/
structure DataFrame where
  cols : List String
  rows : List Row
deriving DecidableEq

/-- The five CSV schema columns, in the order used throughout the app. -/
def baseCols : List String :=
  ["Mitarbeiter-ID", "Name", "Startdatum", "Enddatum", "Grund"]

/-- The columns after the derived Fehltage column has been added. -/
def fullCols : List String := baseCols ++ ["Fehltage"]

/-- read_csv parse_dates on one cell: a date cell parses, an empty
cell is NaT. -/
def parseDateCell : Cell → Option Nat
  | .date d => some d
  | _ => none

/-- read_csv on a string-typed cell; an empty cell would be NaN,
approximated by the empty string (no app-written file contains one). -/
def parseStrCell : Cell → String
  | .str s => s
  | _ => ""

/-- read_csv on an integer-typed cell (the Fehltage column). -/
def parseIntCell : Cell → Option Int
  | .int n => some n
  | _ => none

/-- read_csv on one record line, positionally against the schema
written by this application. -/
def parseRow (cs : List Cell) : Row :=
  { mid := parseStrCell (cs.getD 0 .empty),
    name := parseStrCell (cs.getD 1 .empty),
    start := parseDateCell (cs.getD 2 .empty),
    ende := parseDateCell (cs.getD 3 .empty),
    grund := parseStrCell (cs.getD 4 .empty),
    fehltage := parseIntCell (cs.getD 5 .empty) }

/-- data_utils.py load_data.  The argument is the state of the CSV
file (none when the file does not exist, which pandas reports by the
FileNotFoundError the function catches).  Reading with sep=";" a file
written with a different separator leaves everything in one column and
parse_dates then raises on the missing Startdatum/Enddatum columns,
modelled by the none result; the same happens when those columns are
absent from the header.  Otherwise the dates are parsed and
normalized (the identity on day numbers) and, when the frame is not
empty, the Fehltage column is recomputed from the dates. -/
def load_data : Option CsvFile → Option DataFrame
  | none => some ⟨baseCols, []⟩
  | some f =>
    if f.sep = ';' ∧ "Startdatum" ∈ f.header ∧ "Enddatum" ∈ f.header then
      let rows := f.rows.map parseRow
      if rows.isEmpty then
        some ⟨f.header, rows⟩
      else
        some ⟨if "Fehltage" ∈ f.header then f.header else f.header ++ ["Fehltage"],
              computeFehltage rows⟩
    else
      none

/-- Serialization of one date field by to_csv: an ISO date cell, or an
empty cell for NaT. -/
def cellOfDate : Option Nat → Cell
  | some d => .date d
  | none => .empty

/-- Serialization of one Fehltage value by to_csv: a decimal integer
cell, or an empty cell for NaN. -/
def cellOfInt : Option Int → Cell
  | some n => .int n
  | none => .empty

/-- Serialization of one row by to_csv; the Fehltage cell is written
only when the frame has that column. -/
def rowToCells (hasFehltage : Bool) (r : Row) : List Cell :=
  [.str r.mid, .str r.name, cellOfDate r.start, cellOfDate r.ende, .str r.grund]
    ++ (if hasFehltage then [cellOfInt r.fehltage] else [])

/-- df.to_csv(CSV_DATEI, sep=";", index=False) as called by the app. -/
def to_csv (t : DataFrame) : CsvFile :=
  ⟨';', t.cols, t.rows.map (rowToCells (decide ("Fehltage" ∈ t.cols)))⟩

/-- The state the add-record callback reads and writes: the global
abwesenheiten frame and the CSV file on disk (none when absent). -/
structure AppState where
  df : DataFrame
  csv : Option CsvFile
deriving DecidableEq

/-- Python truthiness of an optional form value: None and the empty
string are falsy. -/
def truthy : Option String → Bool
  | none => false
  | some s => !s.isEmpty

/-- Error message of app.py when a form field is missing. -/
def msgFehlend : String := "Alle Felder müssen ausgefüllt werden!"

/-- Error message when the start date lies after the end date. -/
def msgReihenfolge : String := "Das Startdatum darf nicht nach dem Enddatum liegen!"

/-- Success message of the add-record callback. -/
def msgErfolg : String := "Abwesenheit erfolgreich hinzugefügt!"

/-- Error message of filter_date_range when a date is missing. -/
def msgDatumFehlt : String := "Bitte wählen Sie ein Start- und Enddatum aus."

/-- Error message of filter_date_range when nothing is in range. -/
def msgKeineDaten : String := "Keine Daten im ausgewählten Zeitraum gefunden!"

namespace App

/-- Resolution of the Grund field of app.py: the dropdown value,
replaced by the free-text value when the dropdown says Andere and the
free text is truthy. -/
def resolveGrund (grund andererGrund : Option String) : String :=
  let g0 := grund.getD ""
  if g0 = "Andere" ∧ truthy andererGrund then andererGrund.getD "" else g0

/-- The state after the success branch of the add-record callback:
reuse the Mitarbeiter-ID of the first existing row with the same name
(or the freshly drawn EMP id), append the new record, recompute the
Fehltage column over the whole frame, and write the CSV file. -/
def successState (st : AppState) (freshId nm : String) (s e : Nat) (g : String) :
    AppState :=
  let mid :=
    match st.df.rows.find? (fun r => r.name = nm) with
    | some r => r.mid
    | none => freshId
  let neu : Row :=
    { mid := mid, name := nm, start := some s, ende := some e,
      grund := g, fehltage := none }
  let rows := computeFehltage (st.df.rows ++ [neu])
  let cols := if "Fehltage" ∈ st.df.cols then st.df.cols else st.df.cols ++ ["Fehltage"]
  ⟨⟨cols, rows⟩, some (to_csv ⟨cols, rows⟩)⟩

/-- app.py abwesenheit_hinzufuegen (the add-record callback).  The
date-picker values arrive as ISO strings and are parsed and
normalized, modelled as Option Nat day numbers; freshId stands for
the EMP-uuid4 identifier drawn when the name is new.  Returns the
feedback message together with the state after the call. -/
def abwesenheit_hinzufuegen (st : AppState) (freshId : String)
    (name : Option String) (startDatum endDatum : Option Nat)
    (grund andererGrund : Option String) : String × AppState :=
  if ¬ (truthy name ∧ startDatum.isSome ∧ endDatum.isSome ∧ truthy grund) then
    (msgFehlend, st)
  else
    match startDatum, endDatum with
    | some s, some e =>
      if e < s then (msgReihenfolge, st)
      else (msgErfolg,
            successState st freshId (name.getD "") s e (resolveGrund grund andererGrund))
    | _, _ => (msgFehlend, st)

end App

/-- Smiley classification of data_utils.py create_krank_uebersicht. -/
def smileyOf (x : Int) : String :=
  if x ≤ 10 then "😄" else if x ≤ 20 then "😐" else if x ≤ 30 then "😕" else "😢"

/-- One row of the sick-day summary table: Mitarbeiter-ID, Name,
Summe Krank-Fehltage, Smiley. -/
structure KrankRow where
  mid : String
  name : String
  summe : Int
  smiley : String
deriving DecidableEq

/-- Insertion of one element into a sorted list (helper of the sort
used to model the sorted group keys of pandas groupby). -/
def insertSorted (le : α → α → Bool) (a : α) : List α → List α
  | [] => [a]
  | b :: t => if le a b then a :: b :: t else b :: insertSorted le a t

/-- Insertion sort, modelling the sorted order in which pandas
groupby (sort=True) and sort_values emit their rows. -/
def sortBy (le : α → α → Bool) : List α → List α
  | [] => []
  | a :: t => insertSorted le a (sortBy le t)

/-- The distinct group keys of a pandas groupby over the given key
function, in sorted order. -/
def groupKeys [DecidableEq β] (le : β → β → Bool) (key : α → β) (l : List α) : List β :=
  sortBy le ((l.map key).dedup)

/-- A pandas groupby().count() (equivalently .size() on never-null
columns): one (key, group size) pair per distinct key. -/
def groupCount [DecidableEq β] (le : β → β → Bool) (key : α → β) (l : List α) :
    List (β × Nat) :=
  (groupKeys le key l).map (fun k => (k, (l.filter (fun x => decide (key x = k))).length))

/-- Lexicographic order on the (Mitarbeiter-ID, Name) group keys, the
order pandas groupby (sort=True) emits the groups in. -/
def pairLe (a b : String × String) : Bool :=
  decide (a.1 < b.1) || (decide (a.1 = b.1) && decide (a.2 ≤ b.2))

/-- The distinct (Mitarbeiter-ID, Name) group keys of the groupby,
sorted as pandas sorts them. -/
def krankKeys (krank : List Row) : List (String × String) :=
  groupKeys pairLe (fun r => (r.mid, r.name)) krank

/-- Sum of the Fehltage column over one group; pandas sum skips NaN,
so a missing value contributes 0. -/
def krankSum (krank : List Row) (k : String × String) : Int :=
  ((krank.filter (fun r => r.mid = k.1 ∧ r.name = k.2)).map
    (fun r => r.fehltage.getD 0)).sum

/-- data_utils.py create_krank_uebersicht: filter to Grund = Krank,
group by (Mitarbeiter-ID, Name), sum Fehltage, append the Smiley
column.  Both empty-frame early returns yield the empty row list. -/
def create_krank_uebersicht (df : List Row) : List KrankRow :=
  let krank := df.filter (fun r => r.grund = "Krank")
  (krankKeys krank).map (fun k =>
    let s := krankSum krank k
    ⟨k.1, k.2, s, smileyOf s⟩)

/-- Row predicate of the export filter: Startdatum >= start and
Enddatum <= end; a NaT on either side compares false in pandas. -/
def inRange (s e : Nat) (r : Row) : Bool :=
  (match r.start with | some d => decide (s ≤ d) | none => false) &&
  (match r.ende with | some d => decide (d ≤ e) | none => false)

/-- data_utils.py filter_date_range: validates the two dates, then
keeps the records lying entirely inside the range; none stands for
the None frame returned on every error path. -/
def filter_date_range (df : List Row) (startDate endDate : Option Nat) :
    Option (List Row) × String :=
  match startDate, endDate with
  | some s, some e =>
    if e < s then (none, msgReihenfolge)
    else
      let filtered := df.filter (inRange s e)
      if filtered.isEmpty then (none, msgKeineDaten) else (some filtered, "")
  | _, _ => (none, msgDatumFehlt)

namespace Figures

/-- Boolean string order used for the sorted groupby keys. -/
def strLe (a b : String) : Bool := decide (a ≤ b)

/-- figures.py grund_trends: groupby("Grund")["Datum"].count(), one
(Grund, Tage) pair per distinct reason, keys sorted; count of the
never-null Datum column is the group size. -/
def grund_trends (e : List ExpRow) : List (String × Nat) :=
  groupCount strLe (fun x => x.grund) e

/-- Order of the weekday chart rows after the sort_values on
(WOCHENTAGE index, Grund). -/
def wdKeyLe (a b : String × String) : Bool :=
  let ia := WOCHENTAGE.findIdx (fun w => w = a.1)
  let ib := WOCHENTAGE.findIdx (fun w => w = b.1)
  decide (ia < ib) || (decide (ia = ib) && decide (a.2 ≤ b.2))

/-- figures.py wochentag_trends: groupby(["Wochentag", "Grund"]) count
of Datum, then sorted by weekday index and reason. -/
def wochentag_trends (e : List ExpRow) : List ((String × String) × Nat) :=
  groupCount wdKeyLe (fun x => (x.wochentag, x.grund)) e

/-- Order of the month chart rows after the sort_values on
(MONATE index, Grund). -/
def moKeyLe (a b : String × String) : Bool :=
  let ia := MONATE.findIdx (fun w => w = a.1)
  let ib := MONATE.findIdx (fun w => w = b.1)
  decide (ia < ib) || (decide (ia = ib) && decide (a.2 ≤ b.2))

/-- figures.py monat_trends: groupby(["Monat", "Grund"]) count of
Datum, then sorted by month index and reason. -/
def monat_trends (e : List ExpRow) : List ((String × String) × Nat) :=
  groupCount moKeyLe (fun x => (x.monat, x.grund)) e

end Figures

namespace HeapModel

/-!
A minimal heap of pandas objects, used to settle the frame claims:
DataFrames are heap objects addressed by references (indices), an
in-place column assignment is a set on the heap, and building a new
frame is an allocation at the end of the heap.  The two transform
functions are re-traced statement by statement against this heap to
show which objects they write.
-/

/-- A pandas object living on the heap. -/
inductive PdObject
  | records (l : List Row)
  | expanded (l : List ExpRow)
  | uebersicht (l : List KrankRow)
deriving DecidableEq

/-- The heap: object number n lives at index n; allocation appends. -/
abbrev Heap := List PdObject

/-- Reading a records frame from the heap. -/
def getRows (h : Heap) (r : Nat) : List Row :=
  match h[r]? with
  | some (.records l) => l
  | _ => []

/-- The expanded rows before the Wochentag and Monat columns exist,
modelled by the empty string in those fields. -/
def baseOf (l : List ExpRow) : List ExpRow :=
  l.map (fun x => { x with wochentag := "", monat := "" })

/-- Effect of the two column assignments expanded[Wochentag] = ... and
expanded[Monat] = ... on the rows of the expanded frame. -/
def addCalendarCols (l : List ExpRow) : List ExpRow :=
  l.map (fun x =>
    { x with wochentag := wochentagMap (weekdayOf x.datum),
             monat := monatMap (monthOf x.datum) })

/-- data_utils.py expand_abwesenheiten traced against the heap.  The
empty-input branch allocates and returns a fresh empty frame; the
comprehension branch either raises (none, heap untouched) or
allocates the fresh expanded frame and then mutates that fresh
object - never the argument - with the two column assignments,
guarded by the not-empty check of the source. -/
def expandHeapBody (h : Heap) (dfRef : Nat) : Heap × Option Nat :=
  let df := getRows h dfRef
  if df.isEmpty then (h ++ [.expanded []], some h.length)
  else
    match DataUtils.expandRows df with
    | none => (h, none)
    | some full =>
      let r := h.length
      let h1 := h ++ [.expanded (baseOf full)]
      let h2 :=
        if full.isEmpty then h1
        else h1.set r (.expanded (addCalendarCols (baseOf full)))
      (h2, some r)

/-- data_utils.py create_krank_uebersicht traced against the heap:
the boolean-mask filter allocates krank_df, the groupby chain
allocates the uebersicht frame, and the Smiley column assignment
mutates that fresh frame in place. -/
def krankHeapBody (h : Heap) (dfRef : Nat) : Heap × Nat :=
  let df := getRows h dfRef
  if df.isEmpty then (h ++ [.uebersicht []], h.length)
  else
    let kr := df.filter (fun r => r.grund = "Krank")
    let h1 := h ++ [.records kr]
    if kr.isEmpty then (h1 ++ [.uebersicht []], h1.length)
    else
      let base := (krankKeys kr).map
        (fun k => (⟨k.1, k.2, krankSum kr k, ""⟩ : KrankRow))
      let r := h1.length
      let h2 := h1 ++ [.uebersicht base]
      let h3 := h2.set r (.uebersicht (base.map (fun x => { x with smiley := smileyOf x.summe })))
      (h3, r)

/-- Content of the object a heap computation returned. -/
def resultObj (p : Heap × Nat) : Option PdObject := p.1[p.2]?

/-- Content of the object an expand heap computation returned, none
when the call raised. -/
def resultObjExpand (p : Heap × Option Nat) : Option (Option PdObject) :=
  p.2.map (fun r => p.1[r]?)

end HeapModel

/-!
Sample data used by the witness and counterexample theorems.
-/

/-- A record with both dates present and Startdatum before Enddatum. -/
def wRow : Row := ⟨"E1", "Anna", some 5, some 7, "Krank", none⟩

/-- A record whose Startdatum is missing (NaT). -/
def wRowBad : Row := ⟨"E2", "Bernd", none, some 3, "Urlaub", none⟩

/-- A CSV file as the app writes it, used by several witnesses. -/
def wCsv : CsvFile :=
  ⟨';', fullCols, [[.str "E1", .str "Anna", .date 5, .date 7, .str "Krank", .int 3]]⟩

/-!
Claim theorems.
-/

/-- C1: for every absence record with non-missing dates and
Startdatum before or equal to Enddatum, expand_abwesenheiten produces
exactly one output row per calendar day in the closed interval
from Startdatum to Enddatum - (Enddatum - Startdatum).days + 1 rows
carrying that record's Mitarbeiter-ID, Name and Grund - and the whole
expanded table is the concatenation of the per-record expansions. -/
theorem C1_expand_one_row_per_day (df : List Row) (r : Row) (s e : Nat)
    (hs : r.start = some s) (he : r.ende = some e) (hle : s ≤ e) :
    (MainApp.expandRow r).length = (e - s) + 1 ∧
    (MainApp.expandRow r).map (fun x => x.datum) = dateRange s e ∧
    (∀ x ∈ MainApp.expandRow r, x.mid = r.mid ∧ x.name = r.name ∧ x.grund = r.grund) ∧
    (∀ d : Nat, (∃ x ∈ MainApp.expandRow r, x.datum = d) ↔ (s ≤ d ∧ d ≤ e)) ∧
    MainApp.expand_abwesenheiten df = (df.map MainApp.expandRow).flatten := by
  have hrow : MainApp.expandRow r = (dateRange s e).map (mkExp r) := by
    simp [MainApp.expandRow, hs, he]
  refine ⟨?_, ?_, ?_, ?_, ?_⟩
  · simp only [hrow, List.length_map, dateRange, List.length_range]
    omega
  · simp [hrow, List.map_map, dateRange, mkExp, Function.comp]
  · intro x hx
    rw [hrow] at hx
    obtain ⟨d, _, rfl⟩ := List.mem_map.mp hx
    exact ⟨rfl, rfl, rfl⟩
  · intro d
    rw [hrow]
    constructor
    · rintro ⟨x, hx, rfl⟩
      obtain ⟨d', hd', rfl⟩ := List.mem_map.mp hx
      obtain ⟨i, hi, rfl⟩ := List.mem_map.mp hd'
      have := List.mem_range.mp hi
      simp only [mkExp]
      omega
    · rintro ⟨h1, h2⟩
      refine ⟨mkExp r d, List.mem_map.mpr ⟨d, ?_, rfl⟩, rfl⟩
      exact List.mem_map.mpr ⟨d - s, List.mem_range.mpr (by omega), by omega⟩
  · simp [MainApp.expand_abwesenheiten, List.flatMap_def]

/-- Witness for C1 at a one-record table covering days 5, 6, 7. -/
theorem C1_expand_one_row_per_day_witness :
    (MainApp.expandRow wRow).length = (7 - 5) + 1 ∧
    (MainApp.expandRow wRow).map (fun x => x.datum) = dateRange 5 7 ∧
    (∀ x ∈ MainApp.expandRow wRow,
      x.mid = wRow.mid ∧ x.name = wRow.name ∧ x.grund = wRow.grund) ∧
    (∀ d : Nat, (∃ x ∈ MainApp.expandRow wRow, x.datum = d) ↔ (5 ≤ d ∧ d ≤ 7)) ∧
    MainApp.expand_abwesenheiten [wRow] = ([wRow].map MainApp.expandRow).flatten :=
  C1_expand_one_row_per_day [wRow] wRow 5 7 rfl rfl (by decide)

/-- C7 counterexample: on a table containing a record with a missing
Startdatum the two expand_abwesenheiten variants disagree - the
data_utils variant evaluates pd.date_range on the NaT date and raises
ValueError (none), while the main variant skips the record and
returns the empty expansion. -/
theorem C7_variants_counterexample :
    ¬ (DataUtils.expand_abwesenheiten [wRowBad] =
        some (MainApp.expand_abwesenheiten [wRowBad])) := by
  decide

/-- C7 amended: on every table whose records all carry both dates the
two variants return the same expanded table, row for row. -/
theorem C7_expand_variants_agree (df : List Row)
    (h : ∀ r ∈ df, r.start.isSome ∧ r.ende.isSome) :
    DataUtils.expand_abwesenheiten df = some (MainApp.expand_abwesenheiten df) := by
  have key : ∀ l : List Row, (∀ r ∈ l, r.start.isSome ∧ r.ende.isSome) →
      DataUtils.expandRows l = some (MainApp.expand_abwesenheiten l) := by
    intro l
    induction l with
    | nil => intro _; rfl
    | cons r rest ih =>
      intro hall
      obtain ⟨h1, h2⟩ := hall r (List.mem_cons_self _ _)
      obtain ⟨s, hs⟩ := Option.isSome_iff_exists.mp h1
      obtain ⟨e, he⟩ := Option.isSome_iff_exists.mp h2
      have hrest := ih (fun x hx => hall x (List.mem_cons_of_mem _ hx))
      simp [DataUtils.expandRows, hs, he, hrest, MainApp.expand_abwesenheiten,
        MainApp.expandRow]
  cases df with
  | nil => rfl
  | cons r rest =>
    simp only [DataUtils.expand_abwesenheiten, List.isEmpty_cons, Bool.false_eq_true,
      if_false]
    exact key _ h

/-- Witness for the amended C7 at a one-record table. -/
theorem C7_expand_variants_agree_witness :
    DataUtils.expand_abwesenheiten [wRow] = some (MainApp.expand_abwesenheiten [wRow]) :=
  C7_expand_variants_agree [wRow] (by decide)

/-- C9: when the CSV file does not exist, load_data raises no error
(the FileNotFoundError is caught) and returns an empty frame with
exactly the five schema columns and in particular no Fehltage column,
whereas every non-empty frame it returns does carry that column. -/
theorem C9_load_data_missing_file :
    load_data none = some ⟨baseCols, []⟩ ∧
    baseCols = ["Mitarbeiter-ID", "Name", "Startdatum", "Enddatum", "Grund"] ∧
    "Fehltage" ∉ baseCols ∧
    ∀ f t, load_data (some f) = some t → t.rows ≠ [] → "Fehltage" ∈ t.cols := by
  refine ⟨rfl, rfl, by decide, ?_⟩
  intro f t hload hne
  simp only [load_data] at hload
  split at hload
  · split at hload
    · cases hload
      rename_i hemp
      exact absurd (List.isEmpty_iff.mp hemp) hne
    · cases hload
      dsimp only
      split
      · assumption
      · exact List.mem_append_right _ (List.mem_singleton.mpr rfl)
  · exact absurd hload (by simp)

/-- Witness for C9: a one-record file loads to a frame carrying the
Fehltage column. -/
theorem C9_load_data_missing_file_witness :
    "Fehltage" ∈ (DataFrame.mk fullCols [⟨"E1", "Anna", some 5, some 7, "Krank", some 3⟩]).cols :=
  C9_load_data_missing_file.2.2.2 wCsv
    ⟨fullCols, [⟨"E1", "Anna", some 5, some 7, "Krank", some 3⟩]⟩
    (by decide) (by decide)

/-- C10: filter_date_range returns the None frame with a non-empty
message exactly when a date is missing, the start date lies strictly
after the end date, or no record lies in the range; otherwise it
returns the non-empty filtered frame and the empty message, and every
returned record lies entirely inside the range. -/
theorem C10_filter_date_range (df : List Row) (sd ed : Option Nat) :
    ((filter_date_range df sd ed).1 = none ↔
      sd = none ∨ ed = none ∨ (∃ s e, sd = some s ∧ ed = some e ∧
        (e < s ∨ df.filter (inRange s e) = []))) ∧
    ((filter_date_range df sd ed).1 = none → (filter_date_range df sd ed).2 ≠ "") ∧
    (∀ l, (filter_date_range df sd ed).1 = some l →
      (filter_date_range df sd ed).2 = "" ∧ l ≠ [] ∧
      ∀ r ∈ l, ∀ s e, sd = some s → ed = some e →
        (∃ d, r.start = some d ∧ s ≤ d) ∧ (∃ d, r.ende = some d ∧ d ≤ e)) := by
  match sd, ed with
  | none, _ =>
    refine ⟨by simp [filter_date_range], by simp [filter_date_range, msgDatumFehlt], ?_⟩
    intro l hl
    simp [filter_date_range] at hl
  | some s, none =>
    refine ⟨by simp [filter_date_range], by simp [filter_date_range, msgDatumFehlt], ?_⟩
    intro l hl
    simp [filter_date_range] at hl
  | some s, some e =>
    have heq : filter_date_range df (some s) (some e) =
        (if e < s then (none, msgReihenfolge)
         else if (df.filter (inRange s e)).isEmpty then (none, msgKeineDaten)
         else (some (df.filter (inRange s e)), "")) := rfl
    by_cases hord : e < s
    · rw [heq, if_pos hord]
      refine ⟨?_, ?_, ?_⟩
      · simp only [true_iff]
        exact Or.inr (Or.inr ⟨s, e, rfl, rfl, Or.inl hord⟩)
      · intro _
        simp [msgReihenfolge]
      · intro l hl
        simp at hl
    · by_cases hemp : (df.filter (inRange s e)).isEmpty
      · rw [heq, if_neg hord, if_pos hemp]
        refine ⟨?_, ?_, ?_⟩
        · simp only [true_iff]
          exact Or.inr (Or.inr ⟨s, e, rfl, rfl, Or.inr (List.isEmpty_iff.mp hemp)⟩)
        · intro _
          simp [msgKeineDaten]
        · intro l hl
          simp at hl
      · rw [heq, if_neg hord, if_neg hemp]
        refine ⟨?_, ?_, ?_⟩
        · constructor
          · intro h
            exact Option.noConfusion h
          · rintro (h | h | ⟨a, b, ha, hb, hc⟩)
            · exact Option.noConfusion h
            · exact Option.noConfusion h
            · cases ha
              cases hb
              rcases hc with h1 | h2
              · exact absurd h1 hord
              · rw [h2] at hemp
                exact absurd rfl hemp
        · intro hnone
          simp at hnone
        · intro l hl
          simp only [Option.some.injEq] at hl
          cases hl
          refine ⟨rfl, fun hl0 => by simp [hl0] at hemp, ?_⟩
          intro r hr a b ha hb
          cases ha
          cases hb
          have hin := (List.mem_filter.mp hr).2
          unfold inRange at hin
          rcases hr1 : r.start with _ | d1 <;> rw [hr1] at hin
          · simp at hin
          · rcases hr2 : r.ende with _ | d2 <;> rw [hr2] at hin
            · simp at hin
            · simp at hin
              exact ⟨⟨d1, rfl, hin.1⟩, ⟨d2, rfl, hin.2⟩⟩

/-- Witness for C10 at a concrete table and range. -/
theorem C10_filter_date_range_witness :
    ((filter_date_range [wRow] (some 4) (some 9)).1 = none ↔
      (some 4 : Option Nat) = none ∨ (some 9 : Option Nat) = none ∨
      (∃ s e, (some 4 : Option Nat) = some s ∧ (some 9 : Option Nat) = some e ∧
        (e < s ∨ [wRow].filter (inRange s e) = []))) ∧
    ((filter_date_range [wRow] (some 4) (some 9)).1 = none →
      (filter_date_range [wRow] (some 4) (some 9)).2 ≠ "") ∧
    (∀ l, (filter_date_range [wRow] (some 4) (some 9)).1 = some l →
      (filter_date_range [wRow] (some 4) (some 9)).2 = "" ∧ l ≠ [] ∧
      ∀ r ∈ l, ∀ s e, (some 4 : Option Nat) = some s → (some 9 : Option Nat) = some e →
        (∃ d, r.start = some d ∧ s ≤ d) ∧ (∃ d, r.ende = some d ∧ d ≤ e)) :=
  C10_filter_date_range [wRow] (some 4) (some 9)

/-- C3: form validation with atomicity.  With a missing (falsy) name,
start date, end date or reason the add-record callback returns the
missing-fields message and leaves the state - the records frame and
the CSV file on disk - unchanged; with all fields present but the
start date strictly after the end date it returns the order message
and leaves the state unchanged; with all fields present and
start before or equal to end it returns the success message and the
frame grows by exactly one row. -/
theorem C3_add_record_validation (st : AppState) (fid : String) (nm : Option String)
    (sd ed : Option Nat) (g ag : Option String) :
    (¬ (truthy nm = true ∧ sd.isSome = true ∧ ed.isSome = true ∧ truthy g = true) →
      (App.abwesenheit_hinzufuegen st fid nm sd ed g ag).1 = msgFehlend ∧
      (App.abwesenheit_hinzufuegen st fid nm sd ed g ag).2 = st) ∧
    (∀ s e, sd = some s → ed = some e → truthy nm = true → truthy g = true → e < s →
      (App.abwesenheit_hinzufuegen st fid nm sd ed g ag).1 = msgReihenfolge ∧
      (App.abwesenheit_hinzufuegen st fid nm sd ed g ag).2 = st) ∧
    (∀ s e, sd = some s → ed = some e → truthy nm = true → truthy g = true → s ≤ e →
      (App.abwesenheit_hinzufuegen st fid nm sd ed g ag).1 = msgErfolg ∧
      (App.abwesenheit_hinzufuegen st fid nm sd ed g ag).2.df.rows.length
        = st.df.rows.length + 1) := by
  refine ⟨?_, ?_, ?_⟩
  · intro h
    delta App.abwesenheit_hinzufuegen
    rw [if_pos h]
    exact ⟨rfl, rfl⟩
  · intro s e hs he hn hg hlt
    subst hs
    subst he
    have hcond : ¬ ¬ (truthy nm = true ∧ (some s : Option Nat).isSome = true ∧
        (some e : Option Nat).isSome = true ∧ truthy g = true) := by
      simp [hn, hg]
    simp only [App.abwesenheit_hinzufuegen, if_neg hcond, if_pos hlt]
    exact ⟨trivial, trivial⟩
  · intro s e hs he hn hg hle
    subst hs
    subst he
    have hcond : ¬ ¬ (truthy nm = true ∧ (some s : Option Nat).isSome = true ∧
        (some e : Option Nat).isSome = true ∧ truthy g = true) := by
      simp [hn, hg]
    simp only [App.abwesenheit_hinzufuegen, if_neg hcond, if_neg (by omega : ¬ e < s)]
    refine ⟨by trivial, ?_⟩
    simp [App.successState, computeFehltage]

/-- Witness for C3: on the empty state a fully filled form succeeds
and a form with a missing name fails and changes nothing. -/
theorem C3_add_record_validation_witness :
    ((App.abwesenheit_hinzufuegen ⟨⟨baseCols, []⟩, none⟩ "EMP-1" (some "Anna")
        (some 5) (some 7) (some "Krank") none).1 = msgErfolg ∧
      (App.abwesenheit_hinzufuegen ⟨⟨baseCols, []⟩, none⟩ "EMP-1" (some "Anna")
        (some 5) (some 7) (some "Krank") none).2.df.rows.length
        = (⟨⟨baseCols, []⟩, none⟩ : AppState).df.rows.length + 1) ∧
    ((App.abwesenheit_hinzufuegen ⟨⟨baseCols, []⟩, none⟩ "EMP-1" none
        (some 5) (some 7) (some "Krank") none).1 = msgFehlend ∧
      (App.abwesenheit_hinzufuegen ⟨⟨baseCols, []⟩, none⟩ "EMP-1" none
        (some 5) (some 7) (some "Krank") none).2 = ⟨⟨baseCols, []⟩, none⟩) :=
  ⟨(C3_add_record_validation ⟨⟨baseCols, []⟩, none⟩ "EMP-1" (some "Anna")
      (some 5) (some 7) (some "Krank") none).2.2 5 7 rfl rfl (by decide) (by decide)
      (by decide),
   (C3_add_record_validation ⟨⟨baseCols, []⟩, none⟩ "EMP-1" none
      (some 5) (some 7) (some "Krank") none).1 (by decide)⟩

/-- Every row of a frame whose Fehltage column has just been
recomputed carries the derived day count of its own dates. -/
theorem mem_computeFehltage (l : List Row) (r : Row) (hr : r ∈ computeFehltage l) :
    r.fehltage = fehltageOf r.start r.ende := by
  obtain ⟨r0, _, rfl⟩ := List.mem_map.mp hr
  rfl

/-- A successful add-record call happened in the success branch: both
dates were present and ordered, and the result is the success state. -/
theorem add_success_characterization (st : AppState) (fid : String) (nm : Option String)
    (sd ed : Option Nat) (g ag : Option String)
    (hsucc : (App.abwesenheit_hinzufuegen st fid nm sd ed g ag).1 = msgErfolg) :
    ∃ s e, sd = some s ∧ ed = some e ∧ s ≤ e ∧
      App.abwesenheit_hinzufuegen st fid nm sd ed g ag
        = (msgErfolg, App.successState st fid (nm.getD "") s e (App.resolveGrund g ag)) := by
  by_cases hc : ¬ (truthy nm = true ∧ sd.isSome = true ∧ ed.isSome = true ∧ truthy g = true)
  · exfalso
    delta App.abwesenheit_hinzufuegen at hsucc
    rw [if_pos hc] at hsucc
    have hmsg : msgFehlend = msgErfolg := hsucc
    exact absurd hmsg (by decide)
  · obtain ⟨hn, hsd, hed, hg⟩ := not_not.mp hc
    obtain ⟨s, rfl⟩ := Option.isSome_iff_exists.mp hsd
    obtain ⟨e, rfl⟩ := Option.isSome_iff_exists.mp hed
    by_cases hlt : e < s
    · exfalso
      simp only [App.abwesenheit_hinzufuegen, if_neg hc, if_pos hlt] at hsucc
      have hmsg : msgReihenfolge = msgErfolg := hsucc
      exact absurd hmsg (by decide)
    · refine ⟨s, e, rfl, rfl, by omega, ?_⟩
      simp only [App.abwesenheit_hinzufuegen, if_neg hc, if_neg hlt]

/-- C5: in every table returned by load_data and in every table
produced by a successful add-record call, the Fehltage value of a row
with both dates present is (Enddatum - Startdatum).days + 1; in
particular a one-day absence has Fehltage 1. -/
theorem C5_fehltage_is_day_count :
    (∀ f t, load_data (some f) = some t →
      ∀ r ∈ t.rows, ∀ s e, r.start = some s → r.ende = some e →
        r.fehltage = some ((e : Int) - (s : Int) + 1)) ∧
    (∀ st fid nm sd ed g ag,
      (App.abwesenheit_hinzufuegen st fid nm sd ed g ag).1 = msgErfolg →
      ∀ r ∈ (App.abwesenheit_hinzufuegen st fid nm sd ed g ag).2.df.rows,
        (∀ s e, r.start = some s → r.ende = some e →
          r.fehltage = some ((e : Int) - (s : Int) + 1)) ∧
        (∀ s, r.start = some s → r.ende = some s → r.fehltage = some 1)) := by
  constructor
  · intro f t hload r hr s e hs he
    simp only [load_data] at hload
    split at hload
    · split at hload
      · cases hload
        rename_i hemp
        rw [List.isEmpty_iff.mp hemp] at hr
        cases hr
      · cases hload
        have hfe := mem_computeFehltage _ _ hr
        rw [hfe, hs, he]
        rfl
    · cases hload
  · intro st fid nm sd ed g ag hsucc r hr
    obtain ⟨s, e, rfl, rfl, hle, heq⟩ :=
      add_success_characterization st fid nm sd ed g ag hsucc
    rw [heq] at hr
    simp only [App.successState] at hr
    have hfe := mem_computeFehltage _ _ hr
    constructor
    · intro s1 e1 hs1 he1
      rw [hfe, hs1, he1]
      rfl
    · intro s1 hs1 he1
      rw [hfe, hs1, he1]
      simp [fehltageOf]

/-- Witness for C5 at a concrete one-record file and a concrete
successful add-record call. -/
theorem C5_fehltage_is_day_count_witness :
    (⟨"E1", "Anna", some 5, some 7, "Krank", some 3⟩ : Row).fehltage =
      some ((7 : Int) - (5 : Int) + 1) ∧
    ∀ r ∈ (App.abwesenheit_hinzufuegen ⟨⟨baseCols, []⟩, none⟩ "EMP-1" (some "Anna")
        (some 5) (some 5) (some "Krank") none).2.df.rows,
      ∀ s, r.start = some s → r.ende = some s → r.fehltage = some 1 := by
  constructor
  · exact C5_fehltage_is_day_count.1 wCsv
      ⟨fullCols, [⟨"E1", "Anna", some 5, some 7, "Krank", some 3⟩]⟩ (by decide)
      ⟨"E1", "Anna", some 5, some 7, "Krank", some 3⟩ (by decide) 5 7 rfl rfl
  · intro r hr
    exact (C5_fehltage_is_day_count.2 ⟨⟨baseCols, []⟩, none⟩ "EMP-1" (some "Anna")
      (some 5) (some 5) (some "Krank") none (by decide) r hr).2

/-- Serialization then parsing of one record line is the identity. -/
theorem parse_rowToCells (r : Row) : parseRow (rowToCells true r) = r := by
  rcases r with ⟨m, n, st0, en0, g0, f0⟩
  rcases st0 with _ | s <;> rcases en0 with _ | e <;> rcases f0 with _ | f <;> rfl

/-- Recomputing the Fehltage of a row that already carries the derived
day count leaves the row unchanged. -/
theorem recompute_self (r : Row) (h : r.fehltage = fehltageOf r.start r.ende) :
    recomputeFehltage r = r := by
  rcases r with ⟨m, n, st0, en0, g0, f0⟩
  simpa [recomputeFehltage, Row.mk.injEq] using h.symm

/-- Writing a frame of the canonical shape with to_csv and loading it
back with load_data returns it unchanged. -/
theorem load_to_csv_roundtrip (t : DataFrame) (hc : t.cols = fullCols)
    (hne : t.rows ≠ [])
    (hf : ∀ r ∈ t.rows, r.fehltage = fehltageOf r.start r.ende) :
    load_data (some (to_csv t)) = some t := by
  rcases t with ⟨cols, rows⟩
  obtain rfl : cols = fullCols := hc
  have hne' : rows ≠ [] := hne
  have hrt : (rows.map (rowToCells true)).map parseRow = rows := by
    rw [List.map_map]
    have := List.map_congr_left (l := rows)
      (f := parseRow ∘ rowToCells true) (g := id) (fun a _ => parse_rowToCells a)
    rw [this, List.map_id]
  have hd : decide ("Fehltage" ∈ fullCols) = true := by rfl
  simp only [to_csv, hd, load_data]
  rw [if_pos (by exact ⟨by trivial, by decide, by decide⟩)]
  simp only [hrt]
  rw [if_neg (by simp [hne'] : ¬ (rows.isEmpty = true))]
  rw [if_pos (by decide : "Fehltage" ∈ fullCols)]
  have hcf : computeFehltage rows = rows := by
    unfold computeFehltage
    have := List.map_congr_left (l := rows) (f := recomputeFehltage) (g := id)
      (fun a ha => recompute_self a (hf a ha))
    rw [this, List.map_id]
  rw [hcf]

/-- C2: a records table produced by a successful add-record call
(started from a frame with the schema columns load_data produces),
written with to_csv and read back with load_data, comes back equal to
the original, row for row and column for column. -/
theorem C2_csv_roundtrip (st : AppState) (fid : String) (nm : Option String)
    (sd ed : Option Nat) (g ag : Option String)
    (hcols : st.df.cols = baseCols ∨ st.df.cols = fullCols)
    (hsucc : (App.abwesenheit_hinzufuegen st fid nm sd ed g ag).1 = msgErfolg) :
    load_data (some (to_csv (App.abwesenheit_hinzufuegen st fid nm sd ed g ag).2.df)) =
      some (App.abwesenheit_hinzufuegen st fid nm sd ed g ag).2.df := by
  obtain ⟨s, e, rfl, rfl, hle, heq⟩ :=
    add_success_characterization st fid nm sd ed g ag hsucc
  rw [heq]
  apply load_to_csv_roundtrip
  · simp only [App.successState]
    rcases hcols with h | h <;> rw [h]
    · rw [if_neg (by decide)]
      rfl
    · rw [if_pos (by decide)]
  · simp [App.successState, computeFehltage]
  · intro r hr
    simp only [App.successState] at hr
    exact mem_computeFehltage _ _ hr

/-- Witness for C2: the concrete one-row table written by a first
successful add survives the CSV round trip. -/
theorem C2_csv_roundtrip_witness :
    load_data (some (to_csv (App.abwesenheit_hinzufuegen ⟨⟨baseCols, []⟩, none⟩ "EMP-1"
        (some "Anna") (some 5) (some 7) (some "Krank") none).2.df)) =
      some (App.abwesenheit_hinzufuegen ⟨⟨baseCols, []⟩, none⟩ "EMP-1"
        (some "Anna") (some 5) (some 7) (some "Krank") none).2.df :=
  C2_csv_roundtrip ⟨⟨baseCols, []⟩, none⟩ "EMP-1" (some "Anna") (some 5) (some 7)
    (some "Krank") none (Or.inl rfl) (by decide)

/-- Inserting an element permutes it onto the front of the list. -/
theorem perm_insertSorted (le : α → α → Bool) (a : α) (l : List α) :
    (insertSorted le a l).Perm (a :: l) := by
  induction l with
  | nil => exact .refl _
  | cons b t ih =>
    simp only [insertSorted]
    split
    · exact .refl _
    · exact (ih.cons b).trans (List.Perm.swap a b t)

/-- The sort is a permutation of its input. -/
theorem perm_sortBy (le : α → α → Bool) (l : List α) : (sortBy le l).Perm l := by
  induction l with
  | nil => exact .refl _
  | cons a t ih =>
    exact (perm_insertSorted le a (sortBy le t)).trans (ih.cons a)

/-- A value is a group key exactly when some row has it as its key. -/
theorem mem_groupKeys [DecidableEq β] (le : β → β → Bool) (key : α → β) (l : List α)
    (b : β) : b ∈ groupKeys le key l ↔ ∃ a ∈ l, key a = b := by
  unfold groupKeys
  rw [(perm_sortBy le _).mem_iff, List.mem_dedup, List.mem_map]

/-- The group keys are pairwise distinct. -/
theorem nodup_groupKeys [DecidableEq β] (le : β → β → Bool) (key : α → β) (l : List α) :
    (groupKeys le key l).Nodup :=
  ((perm_sortBy le _).symm).nodup (List.nodup_dedup _)

/-- Membership in a groupby count: a pair is present exactly when its
key occurs in the data and its count is that key's group size. -/
theorem mem_groupCount [DecidableEq β] (le : β → β → Bool) (key : α → β) (l : List α)
    (b : β) (n : Nat) :
    (b, n) ∈ groupCount le key l ↔
      ((∃ a ∈ l, key a = b) ∧ n = (l.filter (fun x => decide (key x = b))).length) := by
  unfold groupCount
  rw [List.mem_map]
  constructor
  · rintro ⟨k, hk, hkeq⟩
    have hk1 : k = b := congrArg Prod.fst hkeq
    have hk2 : (l.filter (fun x => decide (key x = k))).length = n :=
      congrArg Prod.snd hkeq
    subst hk1
    exact ⟨(mem_groupKeys le key l k).mp hk, hk2.symm⟩
  · rintro ⟨hex, rfl⟩
    exact ⟨b, (mem_groupKeys le key l b).mpr hex, rfl⟩

/-- Every key appears exactly once in a groupby count. -/
theorem nodup_groupCount_keys [DecidableEq β] (le : β → β → Bool) (key : α → β)
    (l : List α) : ((groupCount le key l).map Prod.fst).Nodup := by
  unfold groupCount
  rw [List.map_map]
  have hid : (Prod.fst ∘ fun k : β =>
      (k, (l.filter (fun x => decide (key x = k))).length)) = id := rfl
  rw [hid, List.map_id]
  exact nodup_groupKeys le key l

/-- Counting occurrences of a value in a duplicate-free list gives one
when it is present and zero otherwise. -/
theorem countP_eq_ite_of_nodup [DecidableEq beta] (keys : List beta)
    (hnd : keys.Nodup) (b : beta) :
    keys.countP (fun k => decide (k = b)) = if b ∈ keys then 1 else 0 := by
  induction keys with
  | nil => simp
  | cons a t ih =>
    rw [List.nodup_cons] at hnd
    by_cases hab : a = b
    · subst hab
      simp [List.countP_cons, ih hnd.2, hnd.1]
    · simp [List.countP_cons, ih hnd.2, hab, Ne.symm hab]

/-- The four smiley thresholds of the sick-day summary. -/
theorem smileyOf_spec (x : Int) :
    (x ≤ 10 → smileyOf x = "😄") ∧
    (10 < x ∧ x ≤ 20 → smileyOf x = "😐") ∧
    (20 < x ∧ x ≤ 30 → smileyOf x = "😕") ∧
    (30 < x → smileyOf x = "😢") := by
  unfold smileyOf
  refine ⟨?_, ?_, ?_, ?_⟩
  · intro h
    rw [if_pos h]
  · rintro ⟨h1, h2⟩
    rw [if_neg (by omega), if_pos h2]
  · rintro ⟨h1, h2⟩
    rw [if_neg (by omega), if_neg (by omega), if_pos h2]
  · intro h
    rw [if_neg (by omega), if_neg (by omega), if_neg (by omega)]

/-- C4: in the sick-day summary every (Mitarbeiter-ID, Name) pair
with at least one Krank record appears exactly once, with
Summe Krank-Fehltage the sum of the Fehltage of its Krank records,
and its Smiley determined by the 10 / 20 / 30 thresholds; pairs
without a Krank record do not appear. -/
theorem C4_krank_summary (df : List Row) (m n : String) :
    ((create_krank_uebersicht df).countP
        (fun k => decide (k.mid = m ∧ k.name = n)) =
      if ∃ r ∈ df, r.grund = "Krank" ∧ r.mid = m ∧ r.name = n then 1 else 0) ∧
    (∀ k ∈ create_krank_uebersicht df, k.mid = m → k.name = n →
      k.summe = ((df.filter (fun r =>
          decide (r.grund = "Krank" ∧ r.mid = m ∧ r.name = n))).map
          (fun r => r.fehltage.getD 0)).sum ∧
      (k.summe ≤ 10 → k.smiley = "😄") ∧
      (10 < k.summe ∧ k.summe ≤ 20 → k.smiley = "😐") ∧
      (20 < k.summe ∧ k.summe ≤ 30 → k.smiley = "😕") ∧
      (30 < k.summe → k.smiley = "😢")) := by
  have hmemiff : (m, n) ∈ krankKeys (df.filter (fun r => decide (r.grund = "Krank"))) ↔
      ∃ r ∈ df, r.grund = "Krank" ∧ r.mid = m ∧ r.name = n := by
    rw [krankKeys, mem_groupKeys]
    constructor
    · rintro ⟨r, hr, hkey⟩
      obtain ⟨hdf, hg⟩ := List.mem_filter.mp hr
      refine ⟨r, hdf, of_decide_eq_true hg, ?_, ?_⟩
      · exact congrArg Prod.fst hkey
      · exact congrArg Prod.snd hkey
    · rintro ⟨r, hdf, hg, hm, hn⟩
      exact ⟨r, List.mem_filter.mpr ⟨hdf, decide_eq_true hg⟩, by rw [hm, hn]⟩
  have hsum : krankSum (df.filter (fun r => decide (r.grund = "Krank"))) (m, n) =
      ((df.filter (fun r =>
        decide (r.grund = "Krank" ∧ r.mid = m ∧ r.name = n))).map
        (fun r => r.fehltage.getD 0)).sum := by
    unfold krankSum
    rw [List.filter_filter]
    have hfeq : df.filter (fun a =>
          decide (a.mid = ((m, n) : String × String).1 ∧ a.name = ((m, n) : String × String).2)
            && decide (a.grund = "Krank"))
        = df.filter (fun r => decide (r.grund = "Krank" ∧ r.mid = m ∧ r.name = n)) := by
      apply List.filter_congr
      intro r _
      by_cases h1 : r.grund = "Krank" <;> by_cases h2 : r.mid = m <;>
        by_cases h3 : r.name = n <;> simp [h1, h2, h3]
    rw [hfeq]
  constructor
  · rw [create_krank_uebersicht]
    rw [List.countP_map]
    have hcong : ∀ k ∈ krankKeys (df.filter (fun r => decide (r.grund = "Krank"))),
        ((fun k : KrankRow => decide (k.mid = m ∧ k.name = n)) ∘
          (fun k : String × String =>
            let s := krankSum (df.filter (fun r => decide (r.grund = "Krank"))) k
            (⟨k.1, k.2, s, smileyOf s⟩ : KrankRow))) k
          = ((fun k => decide (k = (m, n))) : String × String → Bool) k := by
      intro k _
      rcases k with ⟨a, b⟩
      by_cases h1 : a = m <;> by_cases h2 : b = n <;>
        simp [h1, h2, Prod.ext_iff]
    rw [List.countP_congr (fun k hk => by rw [hcong k hk])]
    rw [countP_eq_ite_of_nodup _ (by rw [krankKeys]; exact nodup_groupKeys _ _ _) (m, n)]
    by_cases hmem : (m, n) ∈ krankKeys (df.filter (fun r => decide (r.grund = "Krank")))
    · rw [if_pos hmem, if_pos (hmemiff.mp hmem)]
    · rw [if_neg hmem, if_neg (fun hx => hmem (hmemiff.mpr hx))]
  · intro k hk hm hn
    rw [create_krank_uebersicht] at hk
    obtain ⟨k0, hk0, rfl⟩ := List.mem_map.mp hk
    have hfst : k0.1 = m := hm
    have hsnd : k0.2 = n := hn
    have hk0eq : k0 = (m, n) := by
      rcases k0 with ⟨a, b⟩
      simp only at hfst hsnd
      rw [hfst, hsnd]
    subst hk0eq
    refine ⟨by exact hsum, ?_⟩
    exact smileyOf_spec _

/-- Witness for C4 at a table with two Krank records of one employee
summing to 15 sick days. -/
theorem C4_krank_summary_witness :
    (KrankRow.mk "E1" "Anna" 15 "😐").summe =
      ((([⟨"E1", "Anna", some 1, some 3, "Krank", some 3⟩,
          ⟨"E1", "Anna", some 9, some 20, "Krank", some 12⟩] : List Row).filter
         (fun r => decide (r.grund = "Krank" ∧ r.mid = "E1" ∧ r.name = "Anna"))).map
        (fun r => r.fehltage.getD 0)).sum ∧
    ((KrankRow.mk "E1" "Anna" 15 "😐").summe ≤ 10 →
      (KrankRow.mk "E1" "Anna" 15 "😐").smiley = "😄") ∧
    (10 < (KrankRow.mk "E1" "Anna" 15 "😐").summe ∧
        (KrankRow.mk "E1" "Anna" 15 "😐").summe ≤ 20 →
      (KrankRow.mk "E1" "Anna" 15 "😐").smiley = "😐") ∧
    (20 < (KrankRow.mk "E1" "Anna" 15 "😐").summe ∧
        (KrankRow.mk "E1" "Anna" 15 "😐").summe ≤ 30 →
      (KrankRow.mk "E1" "Anna" 15 "😐").smiley = "😕") ∧
    (30 < (KrankRow.mk "E1" "Anna" 15 "😐").summe →
      (KrankRow.mk "E1" "Anna" 15 "😐").smiley = "😢") :=
  (C4_krank_summary
    [⟨"E1", "Anna", some 1, some 3, "Krank", some 3⟩,
     ⟨"E1", "Anna", some 9, some 20, "Krank", some 12⟩] "E1" "Anna").2
    ⟨"E1", "Anna", 15, "😐"⟩ (by decide) rfl rfl

/-- C6: in each of the three chart tables computed from a non-empty
expanded table, the Tage value of a group is the number of expanded
rows with that key, and each occurring key gets exactly one row. -/
theorem C6_trend_group_counts (e : List ExpRow) (_hne : e ≠ []) :
    (∀ g n, (g, n) ∈ Figures.grund_trends e ↔
      ((∃ x ∈ e, x.grund = g) ∧
        n = (e.filter (fun x => decide (x.grund = g))).length)) ∧
    ((Figures.grund_trends e).map Prod.fst).Nodup ∧
    (∀ k n, (k, n) ∈ Figures.wochentag_trends e ↔
      ((∃ x ∈ e, (x.wochentag, x.grund) = k) ∧
        n = (e.filter (fun x => decide ((x.wochentag, x.grund) = k))).length)) ∧
    ((Figures.wochentag_trends e).map Prod.fst).Nodup ∧
    (∀ k n, (k, n) ∈ Figures.monat_trends e ↔
      ((∃ x ∈ e, (x.monat, x.grund) = k) ∧
        n = (e.filter (fun x => decide ((x.monat, x.grund) = k))).length)) ∧
    ((Figures.monat_trends e).map Prod.fst).Nodup := by
  refine ⟨?_, ?_, ?_, ?_, ?_, ?_⟩
  · intro g n
    exact mem_groupCount _ _ _ g n
  · exact nodup_groupCount_keys _ _ _
  · intro k n
    exact mem_groupCount _ _ _ k n
  · exact nodup_groupCount_keys _ _ _
  · intro k n
    exact mem_groupCount _ _ _ k n
  · exact nodup_groupCount_keys _ _ _

/-- Witness for C6: in the three-day expansion of the sample record
the reason Krank is counted with all three days. -/
theorem C6_trend_group_counts_witness :
    ("Krank", ((MainApp.expandRow wRow).filter
        (fun x => decide (x.grund = "Krank"))).length) ∈
      Figures.grund_trends (MainApp.expandRow wRow) :=
  ((C6_trend_group_counts (MainApp.expandRow wRow) (by decide)).1 "Krank" _).mpr
    ⟨⟨mkExp wRow 5, by decide, rfl⟩, rfl⟩

/-- The object returned by the heap trace of expand_abwesenheiten is
a function of the content of the argument frame alone. -/
theorem expandHeapBody_content (h : HeapModel.Heap) (d : Nat) :
    HeapModel.resultObjExpand (HeapModel.expandHeapBody h d) =
      (if (HeapModel.getRows h d).isEmpty then
        some (some (.expanded []))
      else
        match DataUtils.expandRows (HeapModel.getRows h d) with
        | none => none
        | some full =>
            some (some (.expanded (HeapModel.addCalendarCols (HeapModel.baseOf full))))) := by
  unfold HeapModel.expandHeapBody HeapModel.resultObjExpand
  dsimp only
  split
  · simp [List.getElem?_concat_length]
  · split
    · rfl
    · rename_i full heq
      dsimp only
      split
      · rename_i hfe
        rw [List.isEmpty_iff.mp hfe]
        simp [HeapModel.baseOf, HeapModel.addCalendarCols, List.getElem?_concat_length]
      · rw [Option.map_some']
        rw [List.getElem?_set_self (by simp)]

/-- The object returned by the heap trace of create_krank_uebersicht
is a function of the content of the argument frame alone. -/
theorem krankHeapBody_content (h : HeapModel.Heap) (d : Nat) :
    HeapModel.resultObj (HeapModel.krankHeapBody h d) =
      (if (HeapModel.getRows h d).isEmpty then some (.uebersicht [])
       else if ((HeapModel.getRows h d).filter
           (fun r => decide (r.grund = "Krank"))).isEmpty then
         some (.uebersicht [])
       else some (.uebersicht (create_krank_uebersicht (HeapModel.getRows h d)))) := by
  unfold HeapModel.krankHeapBody HeapModel.resultObj
  dsimp only
  split
  · rw [List.getElem?_concat_length]
  · split
    · rw [List.getElem?_concat_length]
    · rw [List.getElem?_set_self (by simp)]
      rw [create_krank_uebersicht, List.map_map]
      rfl

/-- C8: the two transform functions never write the frame passed to
them - every heap object other than their own fresh allocations, in
particular the argument frame, is untouched - and they are
deterministic: the returned frame content depends only on the content
of the argument frame. -/
theorem C8_transform_purity :
    (∀ (h : HeapModel.Heap) (d : Nat), d < h.length →
      ((HeapModel.expandHeapBody h d).1)[d]? = h[d]?) ∧
    (∀ (h : HeapModel.Heap) (d : Nat), d < h.length →
      ((HeapModel.krankHeapBody h d).1)[d]? = h[d]?) ∧
    (∀ h1 d1 h2 d2, HeapModel.getRows h1 d1 = HeapModel.getRows h2 d2 →
      HeapModel.resultObjExpand (HeapModel.expandHeapBody h1 d1) =
        HeapModel.resultObjExpand (HeapModel.expandHeapBody h2 d2)) ∧
    (∀ h1 d1 h2 d2, HeapModel.getRows h1 d1 = HeapModel.getRows h2 d2 →
      HeapModel.resultObj (HeapModel.krankHeapBody h1 d1) =
        HeapModel.resultObj (HeapModel.krankHeapBody h2 d2)) := by
  refine ⟨?_, ?_, ?_, ?_⟩
  · intro h d hd
    unfold HeapModel.expandHeapBody
    dsimp only
    split
    · exact List.getElem?_append_left hd
    · split
      · rfl
      · dsimp only
        split
        · exact List.getElem?_append_left hd
        · rw [List.getElem?_set_ne (by omega)]
          exact List.getElem?_append_left hd
  · intro h d hd
    unfold HeapModel.krankHeapBody
    dsimp only
    split
    · exact List.getElem?_append_left hd
    · split
      · rw [List.getElem?_append_left (by simp; omega)]
        exact List.getElem?_append_left hd
      · rw [List.getElem?_set_ne (by simp; omega)]
        rw [List.getElem?_append_left (by simp; omega)]
        exact List.getElem?_append_left hd
  · intro h1 d1 h2 d2 hin
    rw [expandHeapBody_content, expandHeapBody_content, hin]
  · intro h1 d1 h2 d2 hin
    rw [krankHeapBody_content, krankHeapBody_content, hin]

/-- Witness for C8 on a one-object heap holding a one-record frame. -/
theorem C8_transform_purity_witness :
    ((HeapModel.expandHeapBody [HeapModel.PdObject.records [wRow]] 0).1)[0]? =
      ([HeapModel.PdObject.records [wRow]] : HeapModel.Heap)[0]? ∧
    ((HeapModel.krankHeapBody [HeapModel.PdObject.records [wRow]] 0).1)[0]? =
      ([HeapModel.PdObject.records [wRow]] : HeapModel.Heap)[0]? ∧
    HeapModel.resultObjExpand
        (HeapModel.expandHeapBody [HeapModel.PdObject.records [wRow]] 0) =
      HeapModel.resultObjExpand
        (HeapModel.expandHeapBody [HeapModel.PdObject.expanded [],
          HeapModel.PdObject.records [wRow]] 1) :=
  ⟨C8_transform_purity.1 [HeapModel.PdObject.records [wRow]] 0 (by decide),
   C8_transform_purity.2.1 [HeapModel.PdObject.records [wRow]] 0 (by decide),
   C8_transform_purity.2.2.1 [HeapModel.PdObject.records [wRow]] 0
     [HeapModel.PdObject.expanded [], HeapModel.PdObject.records [wRow]] 1 (by decide)⟩

end Absence
